import Mathlib

/-!
Verification of the Fill Session Controller of the water-vendor mobile app.

The definitions below are shallow embeddings of the TypeScript source:
* `useCountdownTimer` (countdown hook) becomes `CdState`, `cdTick`, `cdRun`,
  `resetCountdown`;
* `useSmartPolling`'s interval selection becomes `computePollingInterval`;
* `useEstimatedTime.fetchEstimatedTime`'s error path becomes
  `fetchEstimatedTime` / `fallbackEstimated`;
* `pumpOperations.executeStartPump` / `stopPump` become event-trace functions;
* `PumpControlScreen`'s `isPumpAvailable`, `checkFillingStatus`,
  `handleStopPump` and `checkAndRestoreActiveTrip` become explicit
  state-passing functions over `PState`.

Remote calls are modelled by explicit outcome parameters (an `Option` or
`Bool` oracle per call); JavaScript numbers that are integers in every
reachable state are modelled as `Nat`/`Int`.
-/

namespace WaterVendor

/-- One physical pump outlet; `inside` is station 1 / station A, `outside`
is station 2 / station B. -/
inductive Station where
  | inside
  | outside
deriving DecidableEq, Repr

/-- A requested station set: the `pump` argument `'inside' | 'outside' | 'both'`
appearing throughout the source. -/
inductive Pump where
  | inside
  | outside
  | both
deriving DecidableEq, Repr

/-- `MotorStatusResponse`: the remote on/off report for the two stations.
`true` models `status === 'ON'`. -/
structure MotorStatus where
  pump_inside : Bool
  pump_outside : Bool
deriving DecidableEq, Repr

/-- `ActiveTripStatus` (types/index.ts): the remote authority's description of
an in-progress trip.  `tripId = 0` models a falsy `tripId`; `tripStartTime`
is an epoch-millisecond timestamp when present. -/
structure ActiveTripStatus where
  tripId : Nat
  customerId : Nat
  pumpUsed : Pump
  tripStartTime : Option Int
deriving DecidableEq, Repr

/-! ## Countdown Engine (`useCountdownTimer`) -/

/-- State of one countdown-hook instance: the `countdown` value and the two
one-shot refs `hasTriggeredFiveRef` / `hasTriggeredZeroRef`. -/
structure CdState where
  value : Nat
  firedFive : Bool
  firedZero : Bool
deriving DecidableEq, Repr

/-- One scheduler step of the countdown hook while `enabled` is true.

Per the source, when `countdown <= 0` no interval is installed, so a step is
a no-op firing nothing.  Otherwise the interval callback decrements,
fires `onReachFive` when the new value is exactly 5 and the five-flag is
unset, fires `onReachZero` when the new value reaches 0 and the zero-flag is
unset, and clamps at 0; the `useEffect` on `[countdown]` then clears the
five-flag while the value is above 5 and the zero-flag while it is above 0.
Returns the new state together with (fired-five, fired-zero). -/
def cdTick : CdState → CdState × Bool × Bool
  | ⟨v0, b5, b0⟩ =>
    if v0 = 0 then (⟨v0, b5, b0⟩, false, false)
    else
      let v := v0 - 1
      let fireFive := decide (v = 5) && !b5
      let fireZero := decide (v = 0) && !b0
      let f5 := if 5 < v then false else (b5 || fireFive)
      let f0 := if 0 < v then false else (b0 || fireZero)
      (⟨v, f5, f0⟩, fireFive, fireZero)

/-- Iterate `cdTick` (the sequence of per-second scheduler steps). -/
def cdRun (s : CdState) : Nat → CdState
  | 0 => s
  | n + 1 => cdRun (cdTick s).1 n

/-- `resetCountdown(newSeconds)`: replaces the value and clears both one-shot
flags; it invokes no callback itself. -/
def resetCountdown (_s : CdState) (newSeconds : Nat) : CdState :=
  ⟨newSeconds, false, false⟩

/-- A countdown freshly started (or reset) at `n`, flags clear. -/
def cdStart (n : Nat) : CdState :=
  ⟨n, false, false⟩

/-- Whether the final-approach callback fires at (0-indexed) step `i`. -/
def fireFiveAt (s : CdState) (i : Nat) : Bool :=
  (cdTick (cdRun s i)).2.1

/-- Whether the exhausted callback fires at (0-indexed) step `i`. -/
def fireZeroAt (s : CdState) (i : Nat) : Bool :=
  (cdTick (cdRun s i)).2.2

/-- The countdown value after `i` steps. -/
def valueAt (s : CdState) (i : Nat) : Nat :=
  (cdRun s i).value

/-! ## Adaptive Reconciliation Poller (`useSmartPolling`) -/

/-- The interval selection of `useSmartPolling` (DEFAULT_INTERVALS, no
override): post-completion 2000 ms, last 5 seconds 1000 ms, last 30 seconds
5000 ms, otherwise 30000 ms.  The selection reads only `isCompleted` and
`countdown`. -/
def computePollingInterval (isCompleted : Bool) (countdown : Nat) : Nat :=
  if isCompleted then 2000
  else if countdown ≤ 5 then 1000
  else if countdown ≤ 30 then 5000
  else 30000

/-- Modelled from the spec: the polling-cadence table of §4.2 — completed
locally 2 s; remaining ≤ 5 s → 1 s; remaining ≤ 30 s → 5 s; otherwise 30 s. -/
def specCadence (completedLocally : Bool) (remaining : Nat) : Nat :=
  if completedLocally then 2000
  else if remaining ≤ 5 then 1000
  else if remaining ≤ 30 then 5000
  else 30000

/-! ## Duration estimate (`useEstimatedTime.fetchEstimatedTime`) -/

/-- The local fallback rate of `fetchEstimatedTime`: 0.46 s/L for a dual
request, 0.9 s/L otherwise.  The decimal literals are modelled exactly as
rationals. -/
def fallbackRate (pumpUsed : Pump) : ℚ :=
  if pumpUsed = Pump.both then 46 / 100 else 9 / 10

/-- `Math.ceil(tankerCapacity * fallbackRate)`. -/
def fallbackEstimated (pumpUsed : Pump) (tankerCapacity : Nat) : Nat :=
  (⌈(tankerCapacity : ℚ) * fallbackRate pumpUsed⌉).toNat

/-- `fetchEstimatedTime(customerId, pumpUsed, tankerCapacity)`: the remote
call's outcome is the `remote` oracle.  Returns (returned value, stored
`estimatedTime` state, stored `error` state).  The function itself never
propagates a remote failure: the catch branch computes the fallback and
returns it. -/
def fetchEstimatedTime (pumpUsed : Pump) (tankerCapacity : Nat)
    (remote : Except Unit Nat) : Nat × Nat × Option Unit :=
  match remote with
  | Except.ok response => (response, response, none)
  | Except.error e =>
      (fallbackEstimated pumpUsed tankerCapacity,
       fallbackEstimated pumpUsed tankerCapacity, some e)

/-! ## Staged start (`pumpOperations.executeStartPump`) -/

/-- Externally visible events of a start sequence: a hardware start command
for one station, a 1000 ms wait, or a progress notification carrying its
countdown argument (the message strings are not modelled). -/
inductive StartEv where
  | cmdStart (st : Station)
  | sleep1s
  | prog (n : Nat)
deriving DecidableEq, Repr

/-- The 5-second settling loop of `executeStartPump` for the dual case:
`for (i = 5; i > 0; i--) { await sleep(1000); if (i > 1) progress(i-1) }`. -/
def settleWait : List StartEv :=
  [StartEv.sleep1s, StartEv.prog 4, StartEv.sleep1s, StartEv.prog 3,
   StartEv.sleep1s, StartEv.prog 2, StartEv.sleep1s, StartEv.prog 1,
   StartEv.sleep1s]

/-- `executeStartPump(pump, customerId, callbacks)` as an event trace.
`okInside` / `okOutside` are the outcomes of the two remote start calls; a
failing call throws, ending the trace at that point (second component
`false`).  Dual case: progress, start inside, progress(5), settling loop,
progress, start outside, progress. -/
def executeStartPump (pump : Pump) (okInside okOutside : Bool) :
    List StartEv × Bool :=
  match pump with
  | Pump.both =>
    let pre := [StartEv.prog 0, StartEv.cmdStart Station.inside]
    if !okInside then (pre, false)
    else
      let mid := [StartEv.prog 5] ++ settleWait ++
        [StartEv.prog 0, StartEv.cmdStart Station.outside]
      if !okOutside then (pre ++ mid, false)
      else (pre ++ mid ++ [StartEv.prog 0], true)
  | Pump.inside =>
    let pre := [StartEv.prog 0, StartEv.cmdStart Station.inside]
    if !okInside then (pre, false) else (pre ++ [StartEv.prog 0], true)
  | Pump.outside =>
    let pre := [StartEv.prog 0, StartEv.cmdStart Station.outside]
    if !okOutside then (pre, false) else (pre ++ [StartEv.prog 0], true)

/-! ## Pump-control screen state (`PumpControlScreen`) -/

/-- The screen state relevant to the controller: motor status, whether this
actor's fill is running, the selected station set, the recorded purchase id,
the estimate, the countdown value, the completion flag, this actor's id, and
the polled occupancy belief (active filling customer and their trip). -/
structure PState where
  motorStatus : Option MotorStatus
  pumpRunning : Bool
  selectedPump : Option Pump
  purchaseId : Option Nat
  estimatedTime : Nat
  countdown : Nat
  isCompleted : Bool
  currentCustomerId : Option Nat
  activeFillingCustomerId : Option Nat
  activeFillingTrip : Option ActiveTripStatus
deriving DecidableEq, Repr

/-- `isPumpAvailable(pump)`: the admission check.  Returns `false` without a
motor status; denies when the active filling customer equals the current
customer (JS `===`, where `null === null` holds); when a different customer
is filling, admits a single station iff that station is off and a dual
request iff both are off (with the redundant early both-running check of the
source); otherwise admits. -/
def isPumpAvailable (s : PState) (pump : Pump) : Bool :=
  match s.motorStatus with
  | none => false
  | some ms =>
    if s.activeFillingCustomerId = s.currentCustomerId then false
    else if s.activeFillingCustomerId ≠ none ∧
        ¬ (s.activeFillingCustomerId = s.currentCustomerId) then
      if ms.pump_inside && ms.pump_outside then false
      else
        match pump with
        | Pump.both => !ms.pump_inside && !ms.pump_outside
        | Pump.inside => !ms.pump_inside
        | Pump.outside => !ms.pump_outside
    else true

/-- Occupancy snapshot as the spec describes it: who holds the active
session, and the physical on/off state of the two stations. -/
structure Occupancy where
  activeActor : Option Nat
  stationInsideOn : Bool
  stationOutsideOn : Bool
deriving DecidableEq, Repr

/-- Modelled from the spec: the Admission Controller rules of §4.3 in
priority order — deny when the active actor equals the requester; when a
(different) actor is active admit iff every requested station is off; admit
unconditionally when nobody is active. -/
def canAdmitSpec (requested : Pump) (actorId : Option Nat) (occ : Occupancy) :
    Bool :=
  if occ.activeActor = actorId then false
  else
    match occ.activeActor with
    | some _ =>
      match requested with
      | Pump.inside => !occ.stationInsideOn
      | Pump.outside => !occ.stationOutsideOn
      | Pump.both => !occ.stationInsideOn && !occ.stationOutsideOn
    | none => true

/-- The stations a stop (or the utility `stopPump`) addresses for a given
selection; for `both` the two stop calls are issued together
(`Promise.all`). -/
def stopTargets : Pump → List Station
  | Pump.inside => [Station.inside]
  | Pump.outside => [Station.outside]
  | Pump.both => [Station.inside, Station.outside]

/-- The state updates of `handleStopPump`'s `onStopSuccess` callback:
`pumpRunning := false`, `isCompleted := false`, `resetCountdown(0)`,
`selectedPump := null`, `purchaseId := null` (the best-effort
`updateTripTime` call is not modelled). -/
def clearedStop (s : PState) : PState :=
  { s with pumpRunning := false, isCompleted := false, countdown := 0,
           selectedPump := none, purchaseId := none }

/-- `handleStopPump()` run to completion: returns immediately when no pump
is selected; otherwise issues the stop commands and, when they succeed
(`stopOk`), applies `onStopSuccess`; on failure only an error is surfaced
and the session state is retained. -/
def handleStopPump (s : PState) (stopOk : Bool) : PState × List Station :=
  match s.selectedPump with
  | none => (s, [])
  | some p => if stopOk then (clearedStop s, stopTargets p) else (s, stopTargets p)

/-- The synchronous prologue of one `handleStopPump` invocation: the guard
reads `selectedPump` from the render state and, when set, the stop commands
are issued (their resolution comes later). -/
def handleStopPumpIssued (s : PState) : List Station :=
  match s.selectedPump with
  | none => []
  | some p => stopTargets p

/-- Two manual-stop invocations in quick succession: both prologues run
against the same render state (the first invocation's `onStopSuccess`
state updates have not been applied while its stop calls are in flight),
then both resolutions succeed in order. -/
def doubleStopQuick (s : PState) : PState × List Station :=
  let c1 := handleStopPumpIssued s
  let c2 := handleStopPumpIssued s
  let s1 := if c1.isEmpty then s else clearedStop s
  let s2 := if c2.isEmpty then s1 else clearedStop s1
  (s2, c1 ++ c2)

/-- Two manual-stop invocations where the second begins only after the
first has fully resolved (its state updates committed). -/
def doubleStopSequential (s : PState) (ok1 ok2 : Bool) : PState × List Station :=
  let r1 := handleStopPump s ok1
  let r2 := handleStopPump r1.1 ok2
  (r2.1, r1.2 ++ r2.2)

/-- `checkFillingStatus()`, one reconciliation poll.  `poll = none` models
the status query (or the follow-up trip query) rejecting: the catch branch
resets the occupancy belief to nobody-active.  Otherwise the snapshot is
stored and, if this actor's fill is believed running while the reported
active customer differs, the backend-auto-stop path invokes
`handleStopPump` (with outcome `stopOk`).  Returns the state, the stop
commands issued, and whether the remote-stop path was taken. -/
def checkFillingStatusStep (s : PState)
    (poll : Option (Option Nat × Option ActiveTripStatus)) (stopOk : Bool) :
    PState × List Station × Bool :=
  match poll with
  | none =>
    ({ s with activeFillingCustomerId := none, activeFillingTrip := none },
     [], false)
  | some (fillingCustomerId, tripDetails) =>
    let s1 := { s with
      activeFillingCustomerId := fillingCustomerId,
      activeFillingTrip :=
        match fillingCustomerId with
        | some _ => tripDetails
        | none => none }
    if s.pumpRunning = true ∧ fillingCustomerId ≠ s.currentCustomerId then
      let r := handleStopPump s1 stopOk
      (r.1, r.2, true)
    else (s1, [], false)

/-- `checkAndRestoreActiveTrip()`: given the stored customer id, the remote
in-progress trip (the `getInProgressTrip` result), the awaited
`fetchEstimatedTime` value and the current wall clock (ms), reconstructs the
running session.  The second component is the list of hardware start
commands issued — the function contains none.  With a usable start time the
countdown is reset to `max(0, estimated - floor((now - start)/1000))` and
the session is marked completed when that is ≤ 0; without one the countdown
is reset to the full estimate. -/
def checkAndRestoreActiveTrip (s : PState) (customerId : Option Nat)
    (activeTrip : Option ActiveTripStatus) (estimated : Nat) (nowMs : Int) :
    PState × List Station :=
  match customerId with
  | none => (s, [])
  | some _ =>
    match activeTrip with
    | none => (s, [])
    | some trip =>
      if trip.tripId ≠ 0 then
        let s1 := { s with pumpRunning := true,
                           selectedPump := some trip.pumpUsed,
                           purchaseId := some trip.tripId,
                           estimatedTime := estimated }
        match trip.tripStartTime with
        | some startMs =>
          let elapsedSeconds : Int := (nowMs - startMs).fdiv 1000
          let remainingTime : Int := max 0 ((estimated : Int) - elapsedSeconds)
          let s2 := { s1 with countdown := remainingTime.toNat }
          if remainingTime ≤ 0 then ({ s2 with isCompleted := true }, [])
          else (s2, [])
        | none => ({ s1 with countdown := estimated }, [])
      else (s, [])

/-! ## Sample states used by counterexamples and witnesses -/

/-- A running single-station (inside) session for customer 1 with 80 s left
on the countdown. -/
def stateC1 : PState :=
  ⟨some ⟨true, false⟩, true, some Pump.inside, some 7, 240, 80, false,
   some 1, some 1, none⟩

/-- Customer 2's screen while customer 1 occupies exactly the inside
station. -/
def stateC2 : PState :=
  ⟨some ⟨true, false⟩, false, none, none, 240, 240, false,
   some 2, some 1, none⟩

/-- The restore sample state: an idle freshly mounted screen for customer 1. -/
def stateC5 : PState :=
  ⟨none, false, none, none, 240, 240, false, some 1, none, none⟩

/-- The dual trip reported by the remote authority in the recovery
scenario. -/
def tripC5 : ActiveTripStatus :=
  ⟨10, 1, Pump.both, some 0⟩

/-- A running inside-station session for customer 1 (double-stop scenario). -/
def stateC6 : PState :=
  ⟨some ⟨true, true⟩, true, some Pump.inside, some 3, 240, 42, false,
   some 1, some 1, none⟩

/-- A running dual session for customer 1 about to be stopped manually. -/
def stateC7 : PState :=
  ⟨some ⟨true, true⟩, true, some Pump.both, some 5, 240, 77, false,
   some 1, some 1, none⟩

/-- Customer 1's screen with a stale belief that customer 2 is filling, both
motors reported on. -/
def stateC10 : PState :=
  ⟨some ⟨true, true⟩, false, none, none, 240, 240, false,
   some 1, some 2, none⟩

lemma cdTick_pos (v0 : Nat) (b5 b0 : Bool) (h : ¬ v0 = 0) :
    cdTick ⟨v0, b5, b0⟩ =
      (⟨v0 - 1,
        if 5 < v0 - 1 then false else (b5 || (decide (v0 - 1 = 5) && !b5)),
        if 0 < v0 - 1 then false else (b0 || (decide (v0 - 1 = 0) && !b0))⟩,
       decide (v0 - 1 = 5) && !b5, decide (v0 - 1 = 0) && !b0) := by
  simp only [cdTick]
  rw [if_neg h]

lemma cdTick_zero (b5 b0 : Bool) :
    cdTick ⟨0, b5, b0⟩ = (⟨0, b5, b0⟩, false, false) := rfl

lemma cdRun_succ_back (s : CdState) (n : Nat) :
    cdRun s (n + 1) = (cdTick (cdRun s n)).1 := by
  induction n generalizing s with
  | zero => rfl
  | succ n ih =>
    show cdRun (cdTick s).1 (n + 1) = _
    rw [ih]
    rfl

lemma cdRun_add (s : CdState) (a b : Nat) :
    cdRun s (a + b) = cdRun (cdRun s a) b := by
  induction a generalizing s with
  | zero =>
    rw [Nat.zero_add]
    rfl
  | succ a ih =>
    have h : a + 1 + b = (a + b) + 1 := by omega
    rw [h]
    show cdRun (cdTick s).1 (a + b) = cdRun (cdRun (cdTick s).1 a) b
    exact ih (cdTick s).1

/-- Closed form of a run from a fresh start above the final-approach
threshold: after `i ≤ n` steps the value is `n - i`, the five-flag is set
exactly when the value has reached 5, and the zero-flag exactly at 0. -/
lemma cdRun_cdStart (n i : Nat) (h5 : 5 < n) (hi : i ≤ n) :
    cdRun (cdStart n) i = ⟨n - i, decide (n - i ≤ 5), decide (n - i = 0)⟩ := by
  induction i with
  | zero =>
    have h1 : decide (n - 0 ≤ 5) = false := by
      rw [decide_eq_false_iff_not]
      omega
    have h2 : decide (n - 0 = 0) = false := by
      rw [decide_eq_false_iff_not]
      omega
    show cdStart n = _
    rw [h1, h2]
    unfold cdStart
    congr 1
  | succ i ih =>
    have hi' : i ≤ n := by omega
    have hvpos : ¬ (n - i = 0) := by omega
    rw [cdRun_succ_back, ih hi', cdTick_pos _ _ _ hvpos]
    simp only [CdState.mk.injEq]
    refine ⟨by omega, ?_, ?_⟩
    · rcases Nat.lt_or_ge 5 (n - i - 1) with hgt | hle
      · rw [if_pos hgt]
        have hnot : ¬ (n - (i + 1) ≤ 5) := by omega
        simp [hnot]
      · rw [if_neg (by omega)]
        have h7 : n - (i + 1) ≤ 5 := by omega
        by_cases h6 : n - i ≤ 5
        · simp [h6, h7]
        · have h55 : n - i - 1 = 5 := by omega
          simp [h6, h55, h7]
    · rcases Nat.lt_or_ge 0 (n - i - 1) with hgt | hle
      · rw [if_pos hgt]
        have hnot : ¬ (n - (i + 1) = 0) := by omega
        simp [hnot]
      · have hz : n - i - 1 = 0 := by omega
        rw [if_neg (by omega)]
        have h00 : n - (i + 1) = 0 := by omega
        have h01 : ¬ (n - i = 0) := by omega
        simp [hz, h00, h01]

/-- Once the value is 0, further scheduler steps change nothing and fire
nothing (the source installs no interval when `countdown <= 0`). -/
lemma cdRun_zero_steady (b5 b0 : Bool) (j : Nat) :
    cdRun ⟨0, b5, b0⟩ j = ⟨0, b5, b0⟩ := by
  induction j with
  | zero => rfl
  | succ j ih =>
    rw [cdRun_succ_back, ih, cdTick_zero]

/-- Core behaviour of a fresh countdown started above 5: the five-callback
fires exactly at the step producing value 5, the zero-callback exactly at
the step reaching 0, and from exhaustion on the value holds at 0 with no
further firing. -/
lemma cdStart_fire_spec (n i : Nat) (h5 : 5 < n) :
    (fireFiveAt (cdStart n) i = true ↔ i = n - 6) ∧
    (fireZeroAt (cdStart n) i = true ↔ i = n - 1) ∧
    (n ≤ i → valueAt (cdStart n) i = 0) := by
  by_cases hlt : i < n
  · have hstate := cdRun_cdStart n i h5 (by omega)
    have hvpos : ¬ (n - i = 0) := by omega
    refine ⟨?_, ?_, ?_⟩
    · unfold fireFiveAt
      rw [hstate, cdTick_pos _ _ _ hvpos]
      show (decide (n - i - 1 = 5) && !decide (n - i ≤ 5)) = true ↔ i = n - 6
      simp only [Bool.and_eq_true, decide_eq_true_eq, Bool.not_eq_true',
        decide_eq_false_iff_not]
      omega
    · unfold fireZeroAt
      rw [hstate, cdTick_pos _ _ _ hvpos]
      show (decide (n - i - 1 = 0) && !decide (n - i = 0)) = true ↔ i = n - 1
      simp only [Bool.and_eq_true, decide_eq_true_eq, Bool.not_eq_true',
        decide_eq_false_iff_not]
      omega
    · intro hge
      omega
  · -- i ≥ n: the run has reached the steady exhausted state ⟨0, true, true⟩
    have hge : n ≤ i := by omega
    have hn : cdRun (cdStart n) n = ⟨0, true, true⟩ := by
      have h := cdRun_cdStart n n h5 (le_refl n)
      simpa using h
    have hsteady : cdRun (cdStart n) i = ⟨0, true, true⟩ := by
      have hsplit : i = n + (i - n) := by omega
      rw [hsplit, cdRun_add, hn, cdRun_zero_steady]
    refine ⟨?_, ?_, ?_⟩
    · unfold fireFiveAt
      rw [hsteady, cdTick_zero]
      show false = true ↔ i = n - 6
      constructor
      · intro hcontra
        exact Bool.noConfusion hcontra
      · intro heq
        exact absurd heq (by omega)
    · unfold fireZeroAt
      rw [hsteady, cdTick_zero]
      show false = true ↔ i = n - 1
      constructor
      · intro hcontra
        exact Bool.noConfusion hcontra
      · intro heq
        exact absurd heq (by omega)
    · intro _
      unfold valueAt
      rw [hsteady]

/-- C4: for every countdown started (or reset) to a value above 5 and left
enabled, the final-approach callback fires exactly once, at the tick whose
new value is exactly 5 (step `n - 6`); the exhausted callback fires exactly
once, at the tick reaching 0 (step `n - 1`); and every later tick holds the
value at 0 and fires neither callback. -/
theorem countdownEngine_thresholds (n i : Nat) (h5 : 5 < n) :
    (fireFiveAt (cdStart n) i = true ↔ i = n - 6) ∧
    (fireZeroAt (cdStart n) i = true ↔ i = n - 1) ∧
    (n ≤ i → valueAt (cdStart n) i = 0 ∧ fireFiveAt (cdStart n) i = false ∧
      fireZeroAt (cdStart n) i = false) := by
  obtain ⟨hf, hz, hv⟩ := cdStart_fire_spec n i h5
  refine ⟨hf, hz, fun hge => ⟨hv hge, ?_, ?_⟩⟩
  · cases hff : fireFiveAt (cdStart n) i
    · rfl
    · exact absurd (hf.mp hff) (by omega)
  · cases hzz : fireZeroAt (cdStart n) i
    · rfl
    · exact absurd (hz.mp hzz) (by omega)

theorem countdownEngine_thresholds_witness :
    5 < 7 ∧
    ((fireFiveAt (cdStart 7) 6 = true ↔ 6 = 7 - 6) ∧
     (fireZeroAt (cdStart 7) 6 = true ↔ 6 = 7 - 1) ∧
     (7 ≤ 6 → valueAt (cdStart 7) 6 = 0 ∧ fireFiveAt (cdStart 7) 6 = false ∧
       fireZeroAt (cdStart 7) 6 = false)) :=
  ⟨by decide, countdownEngine_thresholds 7 6 (by decide)⟩

/-- C8: resetting the countdown re-arms both one-shot callbacks: from any
prior state (in particular after exhaustion), resetting to any `v > 5` and
running fires the final-approach callback again exactly at the tick
producing 5 and the exhausted callback again exactly at the tick reaching 0;
resetting to 0 never itself fires the exhausted callback (no later tick from
the reset-to-zero state fires it either). -/
theorem resetCountdown_rearms_callbacks (s : CdState) (v i : Nat) (h5 : 5 < v) :
    (fireFiveAt (resetCountdown s v) i = true ↔ i = v - 6) ∧
    (fireZeroAt (resetCountdown s v) i = true ↔ i = v - 1) ∧
    fireZeroAt (resetCountdown s 0) i = false := by
  have hr : resetCountdown s v = cdStart v := rfl
  obtain ⟨hf, hz, _⟩ := cdStart_fire_spec v i h5
  refine ⟨hr ▸ hf, hr ▸ hz, ?_⟩
  have h0 : resetCountdown s 0 = (⟨0, false, false⟩ : CdState) := rfl
  unfold fireZeroAt
  rw [h0, cdRun_zero_steady, cdTick_zero]

theorem resetCountdown_rearms_callbacks_witness :
    5 < 6 ∧
    ((fireFiveAt (resetCountdown ⟨0, true, true⟩ 6) 5 = true ↔ 5 = 6 - 6) ∧
     (fireZeroAt (resetCountdown ⟨0, true, true⟩ 6) 5 = true ↔ 5 = 6 - 1) ∧
     fireZeroAt (resetCountdown ⟨0, true, true⟩ 0) 5 = false) :=
  ⟨by decide, resetCountdown_rearms_callbacks ⟨0, true, true⟩ 6 5 (by decide)⟩

/-- C3: in a dual start, station A (inside) is started first — its start
command is the only one in the trace before the first wait — no start
command for station B (outside) appears until all five 1-second settling
waits have elapsed, and if A's start call fails B's start call never
appears; B is started at most once. -/
theorem dualStart_staged_sequencing (okO : Bool) :
    (StartEv.cmdStart Station.outside ∉ (executeStartPump Pump.both false okO).1) ∧
    (((executeStartPump Pump.both true okO).1.takeWhile
        (fun e => decide (e ≠ StartEv.cmdStart Station.outside))).count
        StartEv.sleep1s = 5) ∧
    ((executeStartPump Pump.both true okO).1.count StartEv.sleep1s = 5) ∧
    (StartEv.cmdStart Station.inside ∈ (executeStartPump Pump.both true okO).1.takeWhile
        (fun e => decide (e ≠ StartEv.cmdStart Station.outside))) ∧
    (((executeStartPump Pump.both true okO).1.takeWhile
        (fun e => decide (e ≠ StartEv.sleep1s))).count
        (StartEv.cmdStart Station.inside) = 1) ∧
    ((executeStartPump Pump.both true okO).1.count
        (StartEv.cmdStart Station.outside) ≤ 1) := by
  cases okO <;> decide

/-- C9: when the remote duration-estimate call fails, `fetchEstimatedTime`
does not propagate the error: it returns — and stores as the estimate —
the local fallback `ceil(capacity * 0.46)` for a dual request and
`ceil(capacity * 0.9)` for a single-station request, recording the error
state instead of throwing. -/
theorem estimate_fallback_on_failure (pumpUsed : Pump) (tankerCapacity : Nat) :
    (fetchEstimatedTime pumpUsed tankerCapacity (Except.error ())).1 =
      (if pumpUsed = Pump.both then (⌈(tankerCapacity : ℚ) * (46 / 100)⌉).toNat
       else (⌈(tankerCapacity : ℚ) * (9 / 10)⌉).toNat) ∧
    (fetchEstimatedTime pumpUsed tankerCapacity (Except.error ())).2.1 =
      (fetchEstimatedTime pumpUsed tankerCapacity (Except.error ())).1 ∧
    (fetchEstimatedTime pumpUsed tankerCapacity (Except.error ())).2.2 = some () := by
  cases pumpUsed <;>
    simp [fetchEstimatedTime, fallbackEstimated, fallbackRate]

/-- C2: the admission check agrees everywhere with the spec's priority-ordered
rules: denied when the active actor equals the requester; when a different
actor holds the active session a single request is admitted iff that station
is off and a dual request iff both are off; admitted unconditionally when
nobody holds an active session. -/
theorem isPumpAvailable_eq_canAdmitSpec (s : PState) (ms : MotorStatus)
    (hms : s.motorStatus = some ms) (pump : Pump) :
    isPumpAvailable s pump =
      canAdmitSpec pump s.currentCustomerId
        ⟨s.activeFillingCustomerId, ms.pump_inside, ms.pump_outside⟩ := by
  unfold isPumpAvailable canAdmitSpec
  rw [hms]
  by_cases h1 : s.activeFillingCustomerId = s.currentCustomerId
  · simp [h1]
  · cases hact : s.activeFillingCustomerId with
    | none => simp [h1, hact]
    | some a =>
      have hne : ¬ (some a = s.currentCustomerId) := by
        rw [← hact]
        exact h1
      cases pump <;> cases hbi : ms.pump_inside <;> cases hbo : ms.pump_outside <;>
        simp [h1, hact, hne, hbi, hbo]

theorem isPumpAvailable_eq_canAdmitSpec_witness :
    stateC2.motorStatus = some ⟨true, false⟩ ∧
    (isPumpAvailable stateC2 Pump.outside =
      canAdmitSpec Pump.outside stateC2.currentCustomerId
        ⟨stateC2.activeFillingCustomerId,
         (⟨true, false⟩ : MotorStatus).pump_inside,
         (⟨true, false⟩ : MotorStatus).pump_outside⟩) :=
  ⟨rfl, isPumpAvailable_eq_canAdmitSpec stateC2 ⟨true, false⟩ rfl Pump.outside⟩

lemma clearedStop_idem (s : PState) : clearedStop (clearedStop s) = clearedStop s := rfl

/-- C1 counterexample: the controller believes its fill is running (countdown
80 s) and a poll reports nobody active, but the remote-stop path reuses the
manual stop routine, whose stop call fails here: the countdown is not
cancelled and the session state is not cleared, so the claimed consequence
is not unconditional. -/
theorem remoteStop_claim_counterexample :
    stateC1.pumpRunning = true ∧ stateC1.countdown = 80 ∧
    (checkFillingStatusStep stateC1 (some (none, none)) false).2.2 = true ∧
    ¬ ((checkFillingStatusStep stateC1 (some (none, none)) false).1.pumpRunning = false ∧
       (checkFillingStatusStep stateC1 (some (none, none)) false).1.countdown = 0) := by
  decide

/-- C1 (amended): whenever the controller believes its own fill is running
and a poll reports that the current actor no longer holds the active session
(including nobody active), the remote-stop path is taken and — provided the
stop commands it issues succeed — the countdown is cancelled, the session
state is cleared and completion is reported, regardless of remaining time. -/
theorem remoteStop_clears_session (s : PState) (p : Pump)
    (r : Option Nat) (trip : Option ActiveTripStatus)
    (hrun : s.pumpRunning = true) (hneq : r ≠ s.currentCustomerId)
    (hsel : s.selectedPump = some p) :
    (checkFillingStatusStep s (some (r, trip)) true).2.2 = true ∧
    (checkFillingStatusStep s (some (r, trip)) true).1.pumpRunning = false ∧
    (checkFillingStatusStep s (some (r, trip)) true).1.countdown = 0 ∧
    (checkFillingStatusStep s (some (r, trip)) true).1.selectedPump = none ∧
    (checkFillingStatusStep s (some (r, trip)) true).1.purchaseId = none ∧
    (checkFillingStatusStep s (some (r, trip)) true).2.1 = stopTargets p := by
  simp only [checkFillingStatusStep]
  rw [if_pos ⟨hrun, hneq⟩]
  simp [handleStopPump, hsel, clearedStop]

theorem remoteStop_clears_session_witness :
    (stateC1.pumpRunning = true ∧ (none : Option Nat) ≠ stateC1.currentCustomerId ∧
     stateC1.selectedPump = some Pump.inside) ∧
    ((checkFillingStatusStep stateC1 (some (none, none)) true).2.2 = true ∧
     (checkFillingStatusStep stateC1 (some (none, none)) true).1.pumpRunning = false ∧
     (checkFillingStatusStep stateC1 (some (none, none)) true).1.countdown = 0 ∧
     (checkFillingStatusStep stateC1 (some (none, none)) true).1.selectedPump = none ∧
     (checkFillingStatusStep stateC1 (some (none, none)) true).1.purchaseId = none ∧
     (checkFillingStatusStep stateC1 (some (none, none)) true).2.1 = stopTargets Pump.inside) :=
  ⟨⟨rfl, by decide, rfl⟩,
   remoteStop_clears_session stateC1 Pump.inside none none rfl (by decide) rfl⟩

/-- C5: when the remote authority reports an in-progress session for the
current actor with a usable start time, the controller resumes: the
countdown is set to `max(0, predicted - floor((now - startedAt)/1000))`,
the running state is entered (with `selectedPump`/`purchaseId` restored and
completion marked exactly when the remaining time is ≤ 0), and no
hardware-start command is issued. -/
theorem restore_resumes_running (s : PState) (cid : Nat) (trip : ActiveTripStatus)
    (estimated : Nat) (nowMs startMs : Int)
    (hid : trip.tripId ≠ 0) (hstart : trip.tripStartTime = some startMs) :
    (checkAndRestoreActiveTrip s (some cid) (some trip) estimated nowMs).2 = [] ∧
    (checkAndRestoreActiveTrip s (some cid) (some trip) estimated nowMs).1.pumpRunning = true ∧
    (checkAndRestoreActiveTrip s (some cid) (some trip) estimated nowMs).1.selectedPump =
      some trip.pumpUsed ∧
    (checkAndRestoreActiveTrip s (some cid) (some trip) estimated nowMs).1.purchaseId =
      some trip.tripId ∧
    (checkAndRestoreActiveTrip s (some cid) (some trip) estimated nowMs).1.countdown =
      (max 0 ((estimated : Int) - (nowMs - startMs).fdiv 1000)).toNat ∧
    (checkAndRestoreActiveTrip s (some cid) (some trip) estimated nowMs).1.isCompleted =
      (if max 0 ((estimated : Int) - (nowMs - startMs).fdiv 1000) ≤ 0 then true
       else s.isCompleted) := by
  simp only [checkAndRestoreActiveTrip]
  rw [if_pos hid, hstart]
  by_cases hrem : max 0 ((estimated : Int) - (nowMs - startMs).fdiv 1000) ≤ 0
  · simp [hrem]
  · simp [hrem]

theorem restore_resumes_running_witness :
    (tripC5.tripId ≠ 0 ∧ tripC5.tripStartTime = some 0) ∧
    ((checkAndRestoreActiveTrip stateC5 (some 1) (some tripC5) 240 100000).2 = [] ∧
     (checkAndRestoreActiveTrip stateC5 (some 1) (some tripC5) 240 100000).1.pumpRunning = true ∧
     (checkAndRestoreActiveTrip stateC5 (some 1) (some tripC5) 240 100000).1.selectedPump =
       some Pump.both ∧
     (checkAndRestoreActiveTrip stateC5 (some 1) (some tripC5) 240 100000).1.purchaseId =
       some 10 ∧
     (checkAndRestoreActiveTrip stateC5 (some 1) (some tripC5) 240 100000).1.countdown = 140 ∧
     (checkAndRestoreActiveTrip stateC5 (some 1) (some tripC5) 240 100000).1.isCompleted =
       false) := by
  have h := restore_resumes_running stateC5 1 tripC5 240 100000 0 (by decide) rfl
  refine ⟨⟨by decide, rfl⟩, h.1, h.2.1, ?_, ?_, ?_, ?_⟩
  · rw [h.2.2.1]
    rfl
  · rw [h.2.2.2.1]
    rfl
  · rw [h.2.2.2.2.1]
    decide
  · rw [h.2.2.2.2.2]
    decide

/-- C6 counterexample: two manual-stop invocations in quick succession —
the second begins while the first's stop call is still in flight, so its
guard still sees `selectedPump` set — issue two stop commands for the
requested station, not at most one. -/
theorem doubleStop_quick_counterexample :
    stateC6.selectedPump = some Pump.inside ∧
    (doubleStopQuick stateC6).2.count Station.inside = 2 ∧
    ¬ ((doubleStopQuick stateC6).2.count Station.inside ≤ 1) := by
  decide

/-- C6 (amended): a second manual-stop invocation issued after the first has
resolved successfully issues no further stop command (at most one per
requested station in total), and in both the sequential and the overlapping
case the controller ends in the single cleared end state. -/
theorem doubleStop_idempotent_amended (s : PState) (p : Pump) (ok2 : Bool)
    (hsel : s.selectedPump = some p) :
    (∀ st : Station, (doubleStopSequential s true ok2).2.count st ≤ 1) ∧
    (doubleStopSequential s true ok2).1 = clearedStop s ∧
    (doubleStopQuick s).1 = clearedStop s := by
  have hseq : doubleStopSequential s true ok2 = (clearedStop s, stopTargets p) := by
    unfold doubleStopSequential handleStopPump
    rw [hsel]
    simp [clearedStop]
  have hquick : (doubleStopQuick s).1 = clearedStop s := by
    unfold doubleStopQuick handleStopPumpIssued
    rw [hsel]
    cases p <;> simp [stopTargets, clearedStop_idem]
  refine ⟨?_, by rw [hseq], hquick⟩
  intro st
  rw [hseq]
  show (stopTargets p).count st ≤ 1
  cases p <;> cases st <;> decide

theorem doubleStop_idempotent_amended_witness :
    stateC6.selectedPump = some Pump.inside ∧
    ((doubleStopSequential stateC6 true true).2.count Station.inside ≤ 1 ∧
     (doubleStopSequential stateC6 true true).2.count Station.outside ≤ 1 ∧
     (doubleStopSequential stateC6 true true).1 = clearedStop stateC6 ∧
     (doubleStopQuick stateC6).1 = clearedStop stateC6) := by
  have h := doubleStop_idempotent_amended stateC6 Pump.inside true rfl
  exact ⟨rfl, h.1 Station.inside, h.1 Station.outside, h.2.1, h.2.2⟩

/-- C7 counterexample: after a successful manual stop no session is running,
yet the local state it leaves (`isCompleted = false`, countdown reset to 0)
selects the 1-second cadence, not the 30-second cadence the claim assigns to
"no session running". -/
theorem pollingCadence_after_stop_counterexample :
    (handleStopPump stateC7 true).1.pumpRunning = false ∧
    (handleStopPump stateC7 true).1.isCompleted = false ∧
    (handleStopPump stateC7 true).1.countdown = 0 ∧
    computePollingInterval (handleStopPump stateC7 true).1.isCompleted
      (handleStopPump stateC7 true).1.countdown = 1000 ∧
    ¬ computePollingInterval (handleStopPump stateC7 true).1.isCompleted
      (handleStopPump stateC7 true).1.countdown = 30000 := by
  decide

/-- C7 (amended): the interval in effect is exactly the spec's priority-
ordered step function of (completed-locally, remaining) — the selection
never consults whether a session is running — and the 30-second cadence is
selected iff the session is not completed and the residual countdown value
exceeds 30; with no session running and the countdown reset to 0, the
cadence is 1 second. -/
theorem pollingCadence_step_function (completedFlag : Bool) (remaining : Nat) :
    computePollingInterval completedFlag remaining =
      specCadence completedFlag remaining ∧
    (computePollingInterval completedFlag remaining = 30000 ↔
      completedFlag = false ∧ 30 < remaining) ∧
    computePollingInterval false 0 = 1000 := by
  refine ⟨rfl, ?_, rfl⟩
  unfold computePollingInterval
  cases completedFlag
  · rw [if_neg Bool.false_ne_true]
    constructor
    · intro hv
      by_cases h1 : remaining ≤ 5
      · rw [if_pos h1] at hv
        exact absurd hv (by norm_num)
      · rw [if_neg h1] at hv
        by_cases h2 : remaining ≤ 30
        · rw [if_pos h2] at hv
          exact absurd hv (by norm_num)
        · exact ⟨rfl, by omega⟩
    · rintro ⟨-, hgt⟩
      rw [if_neg (by omega), if_neg (by omega)]
  · rw [if_pos rfl]
    constructor
    · intro hv
      exact absurd hv (by norm_num)
    · rintro ⟨hcontra, -⟩
      exact Bool.noConfusion hcontra

/-- C10: if the occupancy poll rejects, the controller resets its occupancy
belief to nobody-active (active filling customer and active trip both null),
and an admission check performed immediately afterwards (motor status
present, customer logged in) admits every station set. -/
theorem pollFailure_resets_occupancy (s : PState) (ms : MotorStatus) (c : Nat)
    (stopOk : Bool) (hms : s.motorStatus = some ms)
    (hcur : s.currentCustomerId = some c) :
    (checkFillingStatusStep s none stopOk).1.activeFillingCustomerId = none ∧
    (checkFillingStatusStep s none stopOk).1.activeFillingTrip = none ∧
    ∀ pump : Pump,
      isPumpAvailable (checkFillingStatusStep s none stopOk).1 pump = true := by
  refine ⟨rfl, rfl, ?_⟩
  intro pump
  simp [checkFillingStatusStep, isPumpAvailable, hms, hcur]

theorem pollFailure_resets_occupancy_witness :
    (stateC10.motorStatus = some ⟨true, true⟩ ∧
     stateC10.currentCustomerId = some 1) ∧
    ((checkFillingStatusStep stateC10 none true).1.activeFillingCustomerId = none ∧
     (checkFillingStatusStep stateC10 none true).1.activeFillingTrip = none ∧
     isPumpAvailable (checkFillingStatusStep stateC10 none true).1 Pump.inside = true ∧
     isPumpAvailable (checkFillingStatusStep stateC10 none true).1 Pump.outside = true ∧
     isPumpAvailable (checkFillingStatusStep stateC10 none true).1 Pump.both = true) := by
  have h := pollFailure_resets_occupancy stateC10 ⟨true, true⟩ 1 true rfl rfl
  exact ⟨⟨rfl, rfl⟩,
    h.1, h.2.1, h.2.2 Pump.inside, h.2.2 Pump.outside, h.2.2 Pump.both⟩

end WaterVendor
